import Mathlib

/-!
Verification development for the claude-island session daemon.

The definitions below are a shallow embedding of the Python sources:
  * `state_manager.py`   — `SessionStore`, `Session`, `Tool`, phase machine
  * `conversation_parser.py` — `ConversationParser.parse_incremental`,
    `detect_clear_command`
  * `file_monitor.py`    — `ConversationFileHandler.on_modified`
  * `socket_server.py`   — `HookSocketServer.process_event`,
    `handle_client`, `send_approval_response`

Modelling conventions:
  * Python dicts keyed by strings are association lists
    (`lookupKey` / `setKey` / `eraseKey`), which match insertion-ordered
    dict semantics when keys are unique (as they are here: every insert
    goes through `setKey`).
  * `datetime.now()` / `time.time()` are an explicit `now : Nat`
    argument threaded to each operation (milliseconds for the debounce).
  * Opaque JSON payloads (tool `parameters` / `result`) are `String`
    (their serialized form); the Python default `dict()` literal used by
    `event.get("parameters", ...)` is the string `emptyObj`.
  * Conversation records (the dicts produced by `json.loads` over log
    lines) are flat string-keyed/string-valued objects
    (`Message := List (String × String)`) — the only shape the program
    ever inspects (`message.get("type")`, `message.get("content")`).
  * Logging calls and observer callbacks have no effect on the store and
    are omitted; `notify_observers` mutates nothing.
-/

namespace ClaudeIsland

/-- Lookup in an insertion-ordered string-keyed association list,
modelling Python `d.get(k)` / `d[k]`. -/
def lookupKey {α : Type} : List (String × α) → String → Option α
  | [], _ => none
  | (k', v) :: t, k => if k' = k then some v else lookupKey t k

/-- Update/insert in an association list, modelling Python `d[k] = v`:
replaces the first binding of `k` in place, otherwise appends. -/
def setKey {α : Type} : List (String × α) → String → α → List (String × α)
  | [], k, v => [(k, v)]
  | (k', v') :: t, k, v =>
      if k' = k then (k, v) :: t else (k', v') :: setKey t k v

/-- Removal from an association list, modelling Python `del d[k]` /
`d.pop(k, None)`. -/
def eraseKey {α : Type} : List (String × α) → String → List (String × α)
  | [], _ => []
  | (k', v') :: t, k => if k' = k then t else (k', v') :: eraseKey t k

/-- Session execution phases (`SessionPhase` enum in `state_manager.py`). -/
inductive SessionPhase where
  | idle
  | processing
  | running_tool
  | waiting_approval
  | completed
  | error
deriving DecidableEq, Repr

/-- Tool execution information (`Tool` dataclass). -/
structure Tool where
  name : String
  status : String
  start_time : Nat
  end_time : Option Nat := none
  result : Option String := none
  parameters : Option String := none
deriving DecidableEq, Repr

/-- The `pending_approval` dict built by `_handle_permission_request`. -/
structure Approval where
  tool_name : String
  parameters : String
  timestamp : Nat
deriving DecidableEq, Repr

/-- A parsed conversation-log record: a flat JSON object. -/
abbrev Message := List (String × String)

/-- Session state (`Session` dataclass). -/
structure Session where
  session_id : String
  phase : SessionPhase
  active_tool : Option Tool := none
  pending_approval : Option Approval := none
  tools : List Tool := []
  conversation : List Message := []
  created_at : Nat
  updated_at : Nat
deriving DecidableEq, Repr

/-- A hook event: the JSON object read off the socket.  Fields the
program never reads are omitted; absent keys are `none`. -/
structure Event where
  type : Option String := none
  session_id : Option String := none
  tool_name : Option String := none
  parameters : Option String := none
  result : Option String := none
deriving DecidableEq, Repr

/-- Serialized form of the Python literal `dict()` default used by
`event.get("parameters", \x7b\x7d)`. -/
def emptyObj : String := "\x7b\x7d"

/-- Centralized session state (`SessionStore.__init__`). -/
structure SessionStore where
  sessions : List (String × Session) := []
  pending_tool_cache : List (String × Tool) := []
deriving DecidableEq, Repr

/-- A fresh store: no sessions, empty correlation cache. -/
def SessionStore.empty : SessionStore := {}

/-- Handler for `SessionStart` (`_handle_session_start`). -/
def handle_session_start (s : Session) (_e : Event) : Session :=
  { s with phase := .idle }

/-- Handler for `SessionEnd` (`_handle_session_end`). -/
def handle_session_end (s : Session) (_e : Event) : Session :=
  { s with phase := .completed }

/-- Handler for `UserPromptSubmit` (`_handle_user_prompt`). -/
def handle_user_prompt (s : Session) (_e : Event) : Session :=
  { s with phase := .processing }

/-- Handler for `PreToolUse` (`_handle_pre_tool_use`): records the
running tool and caches it under `"<sid>:<tool>"`. -/
def handle_pre_tool_use (s : Session) (e : Event) (now : Nat)
    (cache : List (String × Tool)) : Session × List (String × Tool) :=
  let tool_name := e.tool_name.getD "Unknown"
  let tool : Tool :=
    { name := tool_name, status := "running", start_time := now,
      parameters := e.parameters }
  ({ s with active_tool := some tool, phase := .running_tool },
   setKey cache (s.session_id ++ ":" ++ tool_name) tool)

/-- Handler for `PostToolUse` (`_handle_post_tool_use`): closes the
matching active tool (status forced to `"success"`), then
unconditionally sets the phase to `idle` and pops the cache entry. -/
def handle_post_tool_use (s : Session) (e : Event) (now : Nat)
    (cache : List (String × Tool)) : Session × List (String × Tool) :=
  let tool_name := e.tool_name.getD "Unknown"
  let s' :=
    match s.active_tool with
    | some t =>
        if t.name = tool_name then
          { s with
            tools := s.tools ++
              [{ t with end_time := some now, status := "success",
                        result := e.result }],
            active_tool := none }
        else s
    | none => s
  ({ s' with phase := .idle },
   eraseKey cache (s.session_id ++ ":" ++ tool_name))

/-- Handler for `PermissionRequest` (`_handle_permission_request`). -/
def handle_permission_request (s : Session) (e : Event) (now : Nat) :
    Session :=
  { s with
    pending_approval := some
      { tool_name := e.tool_name.getD "Unknown",
        parameters := e.parameters.getD emptyObj,
        timestamp := now },
    phase := .waiting_approval }

/-- Handler for `Notification` (`_handle_notification`): log only. -/
def handle_notification (s : Session) (_e : Event) : Session := s

/-- Handler for `Stop`/`SubagentStop` (`_handle_stop`). -/
def handle_stop (s : Session) (_e : Event) : Session :=
  { s with phase := .idle, active_tool := none }

/-- The `if`/`elif` dispatch on `event.get("type")` inside
`SessionStore.process_event`; an unrecognized kind only logs. -/
def dispatch_event (et : Option String) (s : Session) (e : Event)
    (now : Nat) (cache : List (String × Tool)) :
    Session × List (String × Tool) :=
  if et = some "SessionStart" then (handle_session_start s e, cache)
  else if et = some "SessionEnd" then (handle_session_end s e, cache)
  else if et = some "UserPromptSubmit" then (handle_user_prompt s e, cache)
  else if et = some "PreToolUse" then handle_pre_tool_use s e now cache
  else if et = some "PostToolUse" then handle_post_tool_use s e now cache
  else if et = some "PermissionRequest" then
    (handle_permission_request s e now, cache)
  else if et = some "Notification" then (handle_notification s e, cache)
  else if et = some "Stop" ∨ et = some "SubagentStop" then
    (handle_stop s e, cache)
  else (s, cache)

/-- The `Session` built by `process_event` when the id is unknown:
idle, with both timestamps at creation time. -/
def freshSession (sid : String) (now : Nat) : Session :=
  { session_id := sid, phase := .idle, created_at := now, updated_at := now }

/-- Model of `SessionStore.process_event`: drops events with a falsy
`session_id`, creates the session if absent, refreshes `updated_at`,
then dispatches on the event type. -/
def SessionStore.process_event (store : SessionStore) (e : Event)
    (now : Nat) : SessionStore :=
  match e.session_id with
  | none => store
  | some sid =>
      if sid = "" then store
      else
        let s₀ := (lookupKey store.sessions sid).getD (freshSession sid now)
        let s₁ := { s₀ with updated_at := now }
        let r := dispatch_event e.type s₁ e now store.pending_tool_cache
        { sessions := setKey store.sessions sid r.1,
          pending_tool_cache := r.2 }

/-- Model of `SessionStore.add_message`: appends to the conversation of an
existing session; a message for an unknown session is logged and
dropped. -/
def SessionStore.add_message (store : SessionStore) (sid : String)
    (m : Message) (now : Nat) : SessionStore :=
  match lookupKey store.sessions sid with
  | none => store
  | some s =>
      { store with
        sessions := setKey store.sessions sid
          { s with conversation := s.conversation ++ [m],
                   updated_at := now } }

/-- Model of `SessionStore.clear_approval`: clears the pending approval and
forces the phase back to `idle`; unknown session is a no-op. -/
def SessionStore.clear_approval (store : SessionStore) (sid : String) :
    SessionStore :=
  match lookupKey store.sessions sid with
  | none => store
  | some s =>
      { store with
        sessions := setKey store.sessions sid
          { s with pending_approval := none, phase := .idle } }

/-- Model of `SessionStore.get_session`. -/
def SessionStore.get_session (store : SessionStore) (sid : String) :
    Option Session :=
  lookupKey store.sessions sid

/-! Log tailer (`conversation_parser.py`).  A log file is its character
content (`List Char`; ASCII, so character positions coincide with the
byte positions used by `f.seek`/`f.tell`); a missing file is `none`. -/

/-- The double-quote character. -/
def quoteChar : Char := Char.ofNat 34

/-- The opening-brace character. -/
def lbraceChar : Char := Char.ofNat 123

/-- The closing-brace character. -/
def rbraceChar : Char := Char.ofNat 125

/-- Text-mode line iteration: split at newline characters, exactly as
`for line in f` exposes the remaining content (the final chunk is
produced even when it lacks a terminating newline). -/
def splitLines : List Char → List (List Char)
  | [] => [[]]
  | c :: cs =>
      if c = '\n' then [] :: splitLines cs
      else
        match splitLines cs with
        | [] => [[c]]
        | l :: ls => (c :: l) :: ls

/-- Whitespace as stripped by Python `str.strip()`. -/
def isWsChar (c : Char) : Bool :=
  c = ' ' || c = '\n' || c = '\t' || c = '\r'

/-- Python `str.strip()`. -/
def trimChars (cs : List Char) : List Char :=
  ((cs.dropWhile isWsChar).reverse.dropWhile isWsChar).reverse

/-- Boolean list-prefix test (Python `str.startswith`). -/
def isPrefixList : List Char → List Char → Bool
  | [], _ => true
  | _ :: _, [] => false
  | a :: as, b :: bs => a = b && isPrefixList as bs

/-- Consume one JSON string literal (no escapes): models the string
tokens appearing in the flat conversation records. -/
def takeStringLit : List Char → Option (String × List Char)
  | [] => none
  | c :: rest =>
      if c = quoteChar then
        let content := rest.takeWhile (fun d => ¬ d = quoteChar)
        match rest.dropWhile (fun d => ¬ d = quoteChar) with
        | d :: r => if d = quoteChar then some (String.mk content, r) else none
        | [] => none
      else none

/-- Consume a nonempty comma-separated run of `"key":"value"` pairs;
fuel-indexed (the fuel is the remaining input length). -/
def parsePairs : Nat → List Char → Option (Message × List Char)
  | 0, _ => none
  | fuel + 1, cs =>
      match takeStringLit cs with
      | none => none
      | some (k, cs₁) =>
          match cs₁ with
          | ':' :: cs₂ =>
              match takeStringLit cs₂ with
              | none => none
              | some (v, cs₃) =>
                  match cs₃ with
                  | ',' :: cs₄ =>
                      match parsePairs fuel cs₄ with
                      | some (ps, rest) => some ((k, v) :: ps, rest)
                      | none => none
                  | _ => some ([(k, v)], cs₃)
          | _ => none

/-- Decode one stripped log line, modelling `json.loads` on the flat
string-keyed/string-valued objects the program reads; any other input
fails to decode (is skipped with a warning, like a `JSONDecodeError`). -/
def decodeLine (cs : List Char) : Option Message :=
  match cs with
  | [] => none
  | c :: rest =>
      if c = lbraceChar then
        if rest = [rbraceChar] then some []
        else
          match parsePairs rest.length rest with
          | some (ps, r) => if r = [rbraceChar] then some ps else none
          | none => none
      else none

/-- Incremental parser state (`ConversationParser.__init__`):
`last_position` is the `f.tell()` byte offset after the previous read. -/
structure ConversationParser where
  last_position : Nat := 0
deriving DecidableEq, Repr

/-- Model of `ConversationParser.parse_incremental`: seek to `last_position`,
iterate the remaining lines (the trailing chunk included, newline or
not), strip each, skip empty lines, decode the rest (malformed lines
are skipped), and record `f.tell()` — the end of file, or the seek
position itself when it already lies beyond the end. -/
def parse_incremental (file : Option (List Char))
    (p : ConversationParser) : List Message × ConversationParser :=
  match file with
  | none => ([], p)
  | some content =>
      let rest := content.drop p.last_position
      let msgs := (splitLines rest).filterMap (fun l =>
        let l' := trimChars l
        if l' = [] then none else decodeLine l')
      (msgs, { p with last_position := max p.last_position content.length })

/-- Model of `ConversationParser.reset`. -/
def ConversationParser.reset (p : ConversationParser) :
    ConversationParser :=
  { p with last_position := 0 }

/-- Model of `ConversationParser.parse_full`: rewind, then parse incrementally. -/
def parse_full (file : Option (List Char)) (p : ConversationParser) :
    List Message × ConversationParser :=
  parse_incremental file p.reset

/-- Model of `detect_clear_command`: a record of type `"user"` whose stripped
content starts with `/clear`. -/
def detect_clear_command (messages : List Message) : Bool :=
  messages.any (fun m =>
    (lookupKey m "type" == some "user") &&
      isPrefixList "/clear".data
        (trimChars ((lookupKey m "content").getD "").data))

/-! Directory watcher callback (`file_monitor.py`).  The filesystem
event is decomposed into its directory name (= the session id), file
name, and the file's current content; `time.time()` is `now` in
milliseconds, so `debounce_delay` is 100. -/

/-- Watcher callback state (`ConversationFileHandler.__init__`). -/
structure ConversationFileHandler where
  parsers : List (String × ConversationParser) := []
  debounce_times : List (String × Nat) := []
  debounce_delay : Nat := 100
deriving DecidableEq, Repr

/-- Model of `ConversationFileHandler.on_modified`: ignore directories and other
file names, debounce per path, poll the (possibly fresh) parser, on a
`/clear` batch rewind the parser and empty the session's conversation,
then deliver every polled record through `add_message`. -/
def ConversationFileHandler.on_modified (h : ConversationFileHandler)
    (store : SessionStore) (is_directory : Bool) (dir_name fname : String)
    (file : Option (List Char)) (now : Nat) :
    ConversationFileHandler × SessionStore :=
  if is_directory then (h, store)
  else if ¬ fname = "conversation.jsonl" then (h, store)
  else
    let src_path := dir_name ++ "/" ++ fname
    let last_time := (lookupKey h.debounce_times src_path).getD 0
    if now - last_time < h.debounce_delay then (h, store)
    else
      let h₁ := { h with debounce_times := setKey h.debounce_times src_path now }
      let session_id := dir_name
      let parser := (lookupKey h₁.parsers session_id).getD {}
      let pr := parse_incremental file parser
      let new_messages := pr.1
      let step2 :=
        if detect_clear_command new_messages then
          (pr.2.reset,
           match store.get_session session_id with
           | some s =>
               { store with
                 sessions := setKey store.sessions session_id
                   { s with conversation := [] } }
           | none => store)
        else (pr.2, store)
      let store₂ := new_messages.foldl
        (fun st m => st.add_message session_id m now) step2.2
      ({ h₁ with parsers := setKey h₁.parsers session_id step2.1 }, store₂)

/-! Hook endpoint (`socket_server.py`).  A connection's writer is an
abstract handle (`Nat`); each operation returns the frames it writes as
`(writer, frame)` pairs.  Reading raw bytes and `json.loads` on them
are abstracted into an `Option Event` argument: `none` models an empty
read or a JSON decode failure (both merely log and return). -/

/-- A frame written back on a hook connection: the acknowledgement
object or a decision object with its reason string. -/
inductive Frame where
  | waiting_ack
  | decision (d : String) (reason : String)
deriving DecidableEq, Repr

/-- Hook socket server state (`HookSocketServer.__init__`): the map
from session id to the stored writer of its pending approval. -/
structure HookSocketServer where
  pending_approvals : List (String × Nat) := []
deriving DecidableEq, Repr

/-- Model of `HookSocketServer.process_event`: feed the event to the store; for
a `PermissionRequest` with a truthy session id, stash the writer and
answer with the acknowledgement frame; otherwise answer nothing. -/
def HookSocketServer.process_event (srv : HookSocketServer)
    (store : SessionStore) (e : Event) (writer : Nat) (now : Nat) :
    HookSocketServer × SessionStore × Option Frame :=
  let store' := store.process_event e now
  if e.type = some "PermissionRequest" then
    let srv' :=
      match e.session_id with
      | some sid =>
          if sid = "" then srv
          else { srv with
                 pending_approvals := setKey srv.pending_approvals sid writer }
      | none => srv
    (srv', store', some Frame.waiting_ack)
  else (srv, store', none)

/-- Model of `HookSocketServer.handle_client`: decode the event and process it,
writing the returned response (if any) back to this connection. -/
def HookSocketServer.handle_client (srv : HookSocketServer)
    (store : SessionStore) (data : Option Event) (writer : Nat)
    (now : Nat) :
    HookSocketServer × SessionStore × List (Nat × Frame) :=
  match data with
  | none => (srv, store, [])
  | some e =>
      let r := srv.process_event store e writer now
      match r.2.2 with
      | some f => (r.1, r.2.1, [(writer, f)])
      | none => (r.1, r.2.1, [])

/-- Model of `HookSocketServer.send_approval_response`: look up the stored
writer; absent means a warning and no change; otherwise write the
decision frame with the fixed reason string, drop the map entry, and
clear the approval in the store. -/
def HookSocketServer.send_approval_response (srv : HookSocketServer)
    (store : SessionStore) (sid : String) (decision : String) :
    HookSocketServer × SessionStore × List (Nat × Frame) :=
  match lookupKey srv.pending_approvals sid with
  | none => (srv, store, [])
  | some w =>
      ({ srv with pending_approvals := eraseKey srv.pending_approvals sid },
       store.clear_approval sid,
       [(w, Frame.decision decision "User decision from frontend")])

/-! Helper lemmas about the association-list primitives. -/

theorem lookupKey_setKey {α : Type} (l : List (String × α)) (k k' : String)
    (v : α) :
    lookupKey (setKey l k v) k' = if k = k' then some v else lookupKey l k' := by
  induction l with
  | nil => simp [setKey, lookupKey]
  | cons p t ih =>
      obtain ⟨k₀, v₀⟩ := p
      by_cases h : k₀ = k
      · subst h
        simp only [setKey, if_pos rfl, lookupKey]
        by_cases h' : k₀ = k' <;> simp [h']
      · simp only [setKey, if_neg h, lookupKey, ih]
        by_cases h₁ : k₀ = k' <;> by_cases h₂ : k = k' <;>
          simp_all

theorem lookupKey_setKey_self {α : Type} (l : List (String × α))
    (k : String) (v : α) : lookupKey (setKey l k v) k = some v := by
  simp [lookupKey_setKey]

/-- Keys of an association list are pairwise distinct. -/
def keysNodup {α : Type} (l : List (String × α)) : Prop :=
  (l.map Prod.fst).Nodup

theorem mem_keys_setKey {α : Type} {l : List (String × α)}
    {k a : String} {v : α}
    (h : a ∈ (setKey l k v).map Prod.fst) : a = k ∨ a ∈ l.map Prod.fst := by
  induction l with
  | nil => simpa [setKey] using h
  | cons p t ih =>
      obtain ⟨k₀, v₀⟩ := p
      by_cases hk : k₀ = k
      · subst hk
        simpa [setKey] using h
      · simp only [setKey, if_neg hk, List.map_cons, List.mem_cons] at h
        rcases h with h | h
        · exact Or.inr (by simp [h])
        · rcases ih h with h' | h'
          · exact Or.inl h'
          · exact Or.inr (by simp [h'])

theorem keysNodup_setKey {α : Type} {l : List (String × α)}
    (k : String) (v : α) (h : keysNodup l) : keysNodup (setKey l k v) := by
  induction l with
  | nil => simp [keysNodup, setKey]
  | cons p t ih =>
      obtain ⟨k₀, v₀⟩ := p
      simp only [keysNodup, List.map_cons, List.nodup_cons] at h
      by_cases hk : k₀ = k
      · subst hk
        simpa [keysNodup, setKey] using h
      · have ht := ih h.2
        simp only [keysNodup, setKey, if_neg hk, List.map_cons,
          List.nodup_cons]
        refine ⟨fun hmem => ?_, ht⟩
        rcases mem_keys_setKey hmem with h' | h'
        · exact hk h'
        · exact h.1 h'

/-! C1 — reachability and the phase/approval invariant. -/

/-- One mutation of the store: a hook event, a decision clearing, or a
log-derived message. -/
inductive StoreStep : SessionStore → SessionStore → Prop where
  | event (e : Event) (now : Nat) (st : SessionStore) :
      StoreStep st (st.process_event e now)
  | clear (sid : String) (st : SessionStore) :
      StoreStep st (st.clear_approval sid)
  | message (sid : String) (m : Message) (now : Nat) (st : SessionStore) :
      StoreStep st (st.add_message sid m now)

/-- Stores reachable from the freshly constructed `SessionStore`. -/
inductive ReachableStore : SessionStore → Prop where
  | base : ReachableStore SessionStore.empty
  | step {st st' : SessionStore} :
      ReachableStore st → StoreStep st st' → ReachableStore st'

/-- One session satisfies the forward half of the coherence invariant. -/
def sessionCoherent (s : Session) : Prop :=
  s.phase = SessionPhase.waiting_approval → s.pending_approval.isSome = true

theorem dispatch_event_coherent (et : Option String) (s : Session)
    (e : Event) (now : Nat) (cache : List (String × Tool))
    (h : sessionCoherent s) :
    sessionCoherent (dispatch_event et s e now cache).1 := by
  unfold dispatch_event
  split_ifs with h1 h2 h3 h4 h5 h6 h7 h8 <;>
    simp_all [sessionCoherent, handle_session_start, handle_session_end,
      handle_user_prompt, handle_pre_tool_use, handle_post_tool_use,
      handle_permission_request, handle_notification, handle_stop]

theorem process_event_coherent (st : SessionStore) (e : Event) (now : Nat)
    (h : ∀ sid s, lookupKey st.sessions sid = some s → sessionCoherent s) :
    ∀ sid s, lookupKey (st.process_event e now).sessions sid = some s →
      sessionCoherent s := by
  intro sid s hs
  cases hid : e.session_id with
  | none =>
      simp only [SessionStore.process_event, hid] at hs
      exact h sid s hs
  | some sid₀ =>
      simp only [SessionStore.process_event, hid] at hs
      by_cases hemp : sid₀ = ""
      · rw [if_pos hemp] at hs; exact h sid s hs
      · rw [if_neg hemp] at hs
        simp only [lookupKey_setKey] at hs
        by_cases heq : sid₀ = sid
        · rw [if_pos heq] at hs
          cases hs
          apply dispatch_event_coherent
          cases hl : lookupKey st.sessions sid₀ with
          | none =>
              simp only [hl, Option.getD]
              intro hph
              simp [freshSession] at hph
          | some s₀ =>
              simp only [hl, Option.getD]
              intro hph
              exact h sid₀ s₀ hl hph
        · rw [if_neg heq] at hs; exact h sid s hs

theorem clear_approval_coherent (st : SessionStore) (sid₀ : String)
    (h : ∀ sid s, lookupKey st.sessions sid = some s → sessionCoherent s) :
    ∀ sid s, lookupKey (st.clear_approval sid₀).sessions sid = some s →
      sessionCoherent s := by
  intro sid s hs
  unfold SessionStore.clear_approval at hs
  cases hl : lookupKey st.sessions sid₀ with
  | none => rw [hl] at hs; exact h sid s hs
  | some s₀ =>
      rw [hl] at hs
      simp only [lookupKey_setKey] at hs
      by_cases heq : sid₀ = sid
      · rw [if_pos heq] at hs
        cases hs
        intro hph
        simp at hph
      · rw [if_neg heq] at hs; exact h sid s hs

theorem add_message_coherent (st : SessionStore) (sid₀ : String)
    (m : Message) (now : Nat)
    (h : ∀ sid s, lookupKey st.sessions sid = some s → sessionCoherent s) :
    ∀ sid s, lookupKey (st.add_message sid₀ m now).sessions sid = some s →
      sessionCoherent s := by
  intro sid s hs
  unfold SessionStore.add_message at hs
  cases hl : lookupKey st.sessions sid₀ with
  | none => rw [hl] at hs; exact h sid s hs
  | some s₀ =>
      rw [hl] at hs
      simp only [lookupKey_setKey] at hs
      by_cases heq : sid₀ = sid
      · rw [if_pos heq] at hs
        cases hs
        intro hph
        exact h sid₀ s₀ hl hph
      · rw [if_neg heq] at hs; exact h sid s hs

theorem reachable_coherent (store : SessionStore)
    (h : ReachableStore store) :
    ∀ sid s, lookupKey store.sessions sid = some s → sessionCoherent s := by
  induction h with
  | base => intro sid' s' hl; simp [SessionStore.empty, lookupKey] at hl
  | step _ hstep ih =>
      cases hstep with
      | event e now => exact process_event_coherent _ e now ih
      | clear sid₀ => exact clear_approval_coherent _ sid₀ ih
      | message sid₀ m now => exact add_message_coherent _ sid₀ m now ih

/-- C1 (amended): along every sequence of hook events, decision
clearings and log messages, `phase = waiting_approval` implies that
`pending_approval` is set.  (The converse direction of the claimed
biconditional is refuted by `C1_counterexample`.) -/
theorem C1_phase_implies_pending (store : SessionStore)
    (h : ReachableStore store) (sid : String) (s : Session)
    (hs : lookupKey store.sessions sid = some s)
    (hph : s.phase = SessionPhase.waiting_approval) :
    s.pending_approval.isSome = true :=
  reachable_coherent store h sid s hs hph

/-! Concrete events and runs used by the claims below. -/

/-- The `SessionStart` event of scenario S1. -/
def eStartA : Event := { type := some "SessionStart", session_id := some "A" }

/-- The `UserPromptSubmit` event of scenario S1. -/
def ePromptA : Event :=
  { type := some "UserPromptSubmit", session_id := some "A" }

/-- The `PreToolUse` event of scenario S1. -/
def ePreA : Event :=
  { type := some "PreToolUse", session_id := some "A",
    tool_name := some "Read", parameters := some "\x7b\"file\":\"/x\"\x7d" }

/-- The `PostToolUse` event of scenario S1. -/
def ePostA : Event :=
  { type := some "PostToolUse", session_id := some "A",
    tool_name := some "Read", result := some "\x7b\"ok\":true\x7d" }

/-- A `PermissionRequest` for session `A`. -/
def ePermA : Event :=
  { type := some "PermissionRequest", session_id := some "A",
    tool_name := some "Bash" }

/-- State after S1 event 1. -/
def st1 : SessionStore := SessionStore.empty.process_event eStartA 0

/-- State after S1 event 2. -/
def st2 : SessionStore := st1.process_event ePromptA 1

/-- State after S1 event 3. -/
def st3 : SessionStore := st2.process_event ePreA 2

/-- State after S1 event 4. -/
def st4 : SessionStore := st3.process_event ePostA 3

/-- State holding a pending approval for session `A`. -/
def stP : SessionStore := SessionStore.empty.process_event ePermA 0

/-- State `stP` after a further `UserPromptSubmit`. -/
def stPQ : SessionStore := stP.process_event ePromptA 1

/-- The session stored in `stP` under `"A"`. -/
def sessA : Session :=
  { session_id := "A", phase := .waiting_approval,
    pending_approval := some
      { tool_name := "Bash", parameters := emptyObj, timestamp := 0 },
    created_at := 0, updated_at := 0 }

/-- Phase together with presence of a pending approval. -/
def phasePendingOf (s : Session) : SessionPhase × Bool :=
  (s.phase, s.pending_approval.isSome)

/-- C1 witness: the invariant instantiated at the reachable store `stP`
and its waiting session. -/
theorem C1_phase_implies_pending_witness :
    sessA.pending_approval.isSome = true :=
  C1_phase_implies_pending stP
    (ReachableStore.step ReachableStore.base
      (StoreStep.event ePermA 0 SessionStore.empty))
    "A" sessA (by decide) (by decide)

/-- C1 counterexample: after `PermissionRequest` then
`UserPromptSubmit` on session `A` — a reachable state — the phase is
`processing` while `pending_approval` is still set, so
`phase = waiting_approval ↔ pending_approval.isSome` fails. -/
theorem C1_counterexample :
    ReachableStore stPQ ∧
    (lookupKey stPQ.sessions "A").map phasePendingOf
      = some (SessionPhase.processing, true) ∧
    SessionPhase.processing ≠ SessionPhase.waiting_approval :=
  ⟨ReachableStore.step
      (ReachableStore.step ReachableStore.base
        (StoreStep.event ePermA 0 SessionStore.empty))
      (StoreStep.event ePromptA 1 stP),
    by decide, by decide⟩

/-! C9 — the S1 happy-path tool call. -/

/-- The completed `Read` tool record produced by S1. -/
def readToolDone : Tool :=
  { name := "Read", status := "success", start_time := 2,
    end_time := some 3, result := some "\x7b\"ok\":true\x7d",
    parameters := some "\x7b\"file\":\"/x\"\x7d" }

/-- C9: the S1 event sequence produces the phases
`idle → processing → running_tool → idle`, leaves exactly one
completed tool (the `Read` with its end time set), and clears
`active_tool`. -/
theorem C9_happy_path_tool_call :
    (lookupKey st1.sessions "A").map Session.phase
      = some SessionPhase.idle ∧
    (lookupKey st2.sessions "A").map Session.phase
      = some SessionPhase.processing ∧
    (lookupKey st3.sessions "A").map Session.phase
      = some SessionPhase.running_tool ∧
    (lookupKey st4.sessions "A").map Session.phase
      = some SessionPhase.idle ∧
    (lookupKey st4.sessions "A").map Session.tools = some [readToolDone] ∧
    (lookupKey st4.sessions "A").map Session.active_tool = some none := by
  decide

/-! C10 — a matched `PostToolUse` always records `"success"`. -/

/-- C10: whenever a `PostToolUse` matches the active tool, the record
appended to `tools` has status `"success"` (and carries the event's
result verbatim) — for every result payload, so an `"error"` status is
never produced. -/
theorem C10_completed_tool_status_success (s : Session) (e : Event)
    (now : Nat) (cache : List (String × Tool)) (t : Tool)
    (hact : s.active_tool = some t)
    (hname : t.name = e.tool_name.getD "Unknown") :
    (handle_post_tool_use s e now cache).1.tools
      = s.tools ++ [{ t with end_time := some now, status := "success",
                             result := e.result }] := by
  simp [handle_post_tool_use, hact, hname]

/-- A running `Read` tool. -/
def runningRead : Tool :=
  { name := "Read", status := "running", start_time := 2 }

/-- A session currently running `runningRead`. -/
def sessRun : Session :=
  { session_id := "A", phase := .running_tool,
    active_tool := some runningRead, created_at := 0, updated_at := 0 }

/-- C10 witness: the matched `PostToolUse` of S1 appends the
`"success"` record. -/
theorem C10_completed_tool_status_success_witness :
    (handle_post_tool_use sessRun ePostA 3 []).1.tools
      = sessRun.tools ++
        [{ runningRead with end_time := some 3, status := "success",
                            result := ePostA.result }] :=
  C10_completed_tool_status_success sessRun ePostA 3 [] runningRead
    (by decide) (by decide)

/-! C6 — unmatched `PostToolUse`. -/

/-- C6 (amended): a `PostToolUse` whose tool does not match the active
tool (or with no active tool) leaves `tools`, `active_tool`,
`pending_approval` and `conversation` unchanged, but — contrary to the
claim — it still forces the phase to `idle`. -/
theorem C6_unmatched_post_tool_use (s : Session) (e : Event) (now : Nat)
    (cache : List (String × Tool))
    (hmis : ∀ t, s.active_tool = some t →
      ¬ t.name = e.tool_name.getD "Unknown") :
    (handle_post_tool_use s e now cache).1.tools = s.tools ∧
    (handle_post_tool_use s e now cache).1.active_tool = s.active_tool ∧
    (handle_post_tool_use s e now cache).1.pending_approval
      = s.pending_approval ∧
    (handle_post_tool_use s e now cache).1.conversation = s.conversation ∧
    (handle_post_tool_use s e now cache).1.phase = SessionPhase.idle := by
  cases hact : s.active_tool with
  | none => simp [handle_post_tool_use, hact]
  | some t =>
      have hne := hmis t hact
      simp [handle_post_tool_use, hact, hne]

/-- A session in the `processing` phase with no active tool. -/
def sessProc : Session :=
  { session_id := "A", phase := .processing, created_at := 0,
    updated_at := 0 }

/-- C6 witness: an unmatched `PostToolUse` against `sessProc`. -/
theorem C6_unmatched_post_tool_use_witness :
    (handle_post_tool_use sessProc ePostA 1 []).1.tools = sessProc.tools ∧
    (handle_post_tool_use sessProc ePostA 1 []).1.active_tool
      = sessProc.active_tool ∧
    (handle_post_tool_use sessProc ePostA 1 []).1.pending_approval
      = sessProc.pending_approval ∧
    (handle_post_tool_use sessProc ePostA 1 []).1.conversation
      = sessProc.conversation ∧
    (handle_post_tool_use sessProc ePostA 1 []).1.phase
      = SessionPhase.idle :=
  C6_unmatched_post_tool_use sessProc ePostA 1 []
    (fun t h => by simp [sessProc] at h)

/-- State with session `A` in phase `processing`. -/
def st6a : SessionStore := SessionStore.empty.process_event ePromptA 0

/-- State `st6a` after an unmatched `PostToolUse`. -/
def st6b : SessionStore := st6a.process_event ePostA 1

/-- C6 counterexample: an unmatched `PostToolUse` delivered in phase
`processing` changes the phase to `idle`, so the session state is not
left unchanged as claimed. -/
theorem C6_counterexample :
    (lookupKey st6a.sessions "A").map Session.phase
      = some SessionPhase.processing ∧
    (lookupKey st6a.sessions "A").map Session.active_tool = some none ∧
    (lookupKey st6b.sessions "A").map Session.phase
      = some SessionPhase.idle ∧
    SessionPhase.idle ≠ SessionPhase.processing := by
  decide

/-! C7 — events of unrecognized kind. -/

/-- The event kinds the reducer dispatches on. -/
def recognizedKinds : List String :=
  ["SessionStart", "SessionEnd", "UserPromptSubmit", "PreToolUse",
   "PostToolUse", "PermissionRequest", "Notification", "Stop",
   "SubagentStop"]

/-- Whether an event type hits one of the reducer's branches. -/
def recognizedKind (et : Option String) : Bool :=
  match et with
  | some t => recognizedKinds.contains t
  | none => false

theorem dispatch_event_unknown (et : Option String)
    (h : recognizedKind et = false) (s : Session) (e : Event) (now : Nat)
    (cache : List (String × Tool)) :
    dispatch_event et s e now cache = (s, cache) := by
  cases et with
  | none => simp [dispatch_event]
  | some t =>
      simp only [recognizedKind] at h
      have h' : ¬ t ∈ recognizedKinds := by simpa using h
      simp only [recognizedKinds, List.mem_cons, List.not_mem_nil,
        or_false, not_or] at h'
      obtain ⟨h1, h2, h3, h4, h5, h6, h7, h8, h9⟩ := h'
      simp [dispatch_event, h1, h2, h3, h4, h5, h6, h7, h8, h9]

/-- C7 (amended): an event of unrecognized kind leaves every other
session untouched and does not alter the fields of its own session —
but, contrary to the claim, it still creates that session if absent
and refreshes its `updated_at`, so inserting it into a sequence does
not always yield identical states. -/
theorem C7_unknown_event_kind (store : SessionStore) (e : Event)
    (now : Nat) (sid : String) (htype : recognizedKind e.type = false)
    (hsid : e.session_id = some sid) (hne : ¬ sid = "") :
    (∀ sid', ¬ sid' = sid →
      lookupKey (store.process_event e now).sessions sid'
        = lookupKey store.sessions sid') ∧
    lookupKey (store.process_event e now).sessions sid
      = some { (lookupKey store.sessions sid).getD (freshSession sid now)
               with updated_at := now } ∧
    (store.process_event e now).pending_tool_cache
      = store.pending_tool_cache := by
  simp only [SessionStore.process_event, hsid, if_neg hne,
    dispatch_event_unknown e.type htype]
  refine ⟨fun sid' hne' => ?_, ?_, by trivial⟩
  · rw [lookupKey_setKey]
    exact if_neg (fun h => hne' h.symm)
  · rw [lookupKey_setKey_self]

/-- A `PreCompact` event: emitted by the assistant's runtime but not
handled by the reducer's dispatch. -/
def ePreCompactA : Event :=
  { type := some "PreCompact", session_id := some "A" }

/-- C7 witness: the amended description instantiated on an empty store
and a `PreCompact` event. -/
theorem C7_unknown_event_kind_witness :
    lookupKey (SessionStore.empty.process_event ePreCompactA 0).sessions "A"
      = some { (lookupKey SessionStore.empty.sessions "A").getD
               (freshSession "A" 0) with updated_at := 0 } :=
  (C7_unknown_event_kind SessionStore.empty ePreCompactA 0 "A"
    (by decide) rfl (by decide)).2.1

/-- C7 counterexample: a `PreCompact` event creates a session in an
empty store, and delivered to an existing session it changes
`updated_at` — so inserting an unrecognized event into a sequence does
not yield identical session states. -/
theorem C7_counterexample :
    SessionStore.empty.sessions = [] ∧
    (lookupKey (SessionStore.empty.process_event ePreCompactA 0).sessions
      "A").isSome = true ∧
    (lookupKey (st6a.process_event ePreCompactA 5).sessions "A").map
      Session.updated_at = some 5 ∧
    (lookupKey st6a.sessions "A").map Session.updated_at = some 0 := by
  decide

/-! C5 — session creation and no eviction. -/

/-- C5 (amended): `process_event` creates a session on the first event
naming its id, and no store operation ever removes a session; but —
contrary to the claim — a log-derived message for an unknown session id
is discarded by `add_message` without creating the session. -/
theorem C5_session_lifecycle :
    (∀ (store : SessionStore) (e : Event) (now : Nat) (sid : String),
      e.session_id = some sid → ¬ sid = "" →
      (lookupKey (store.process_event e now).sessions sid).isSome = true) ∧
    (∀ (store : SessionStore) (sid : String) (m : Message) (now : Nat),
      lookupKey store.sessions sid = none →
      store.add_message sid m now = store) ∧
    (∀ (store : SessionStore) (e : Event) (now : Nat) (sid' : String),
      (lookupKey store.sessions sid').isSome = true →
      (lookupKey (store.process_event e now).sessions sid').isSome = true) ∧
    (∀ (store : SessionStore) (sid sid' : String),
      (lookupKey store.sessions sid').isSome = true →
      (lookupKey (store.clear_approval sid).sessions sid').isSome = true) ∧
    (∀ (store : SessionStore) (sid : String) (m : Message) (now : Nat)
      (sid' : String),
      (lookupKey store.sessions sid').isSome = true →
      (lookupKey (store.add_message sid m now).sessions sid').isSome
        = true) := by
  refine ⟨?_, ?_, ?_, ?_, ?_⟩
  · intro store e now sid hsid hne
    simp [SessionStore.process_event, hsid, if_neg hne,
      lookupKey_setKey_self]
  · intro store sid m now h
    simp [SessionStore.add_message, h]
  · intro store e now sid' h
    cases hsid : e.session_id with
    | none => simpa [SessionStore.process_event, hsid] using h
    | some sid =>
        by_cases hne : sid = ""
        · simpa [SessionStore.process_event, hsid, hne] using h
        · simp only [SessionStore.process_event, hsid, if_neg hne,
            lookupKey_setKey]
          by_cases heq : sid = sid' <;> simp [heq, h]
  · intro store sid sid' h
    cases hl : lookupKey store.sessions sid with
    | none => simpa [SessionStore.clear_approval, hl] using h
    | some s =>
        simp only [SessionStore.clear_approval, hl, lookupKey_setKey]
        by_cases heq : sid = sid' <;> simp [heq, h]
  · intro store sid m now sid' h
    cases hl : lookupKey store.sessions sid with
    | none => simpa [SessionStore.add_message, hl] using h
    | some s =>
        simp only [SessionStore.add_message, hl, lookupKey_setKey]
        by_cases heq : sid = sid' <;> simp [heq, h]

/-- C5 witness: session creation on first event, instantiated on the
empty store and the S1 `SessionStart`. -/
theorem C5_session_lifecycle_witness :
    (lookupKey (SessionStore.empty.process_event eStartA 0).sessions
      "A").isSome = true :=
  C5_session_lifecycle.1 SessionStore.empty eStartA 0 "A" rfl (by decide)

/-- A log-derived user message. -/
def mHello : Message := [("type", "user"), ("content", "hi")]

/-- C5 counterexample: a log-derived message for an unknown session id
is discarded — the store is unchanged and no session is created,
contrary to the claim that it creates the session and appends the
message. -/
theorem C5_counterexample :
    SessionStore.empty.add_message "S" mHello 0 = SessionStore.empty ∧
    lookupKey (SessionStore.empty.add_message "S" mHello 0).sessions "S"
      = none := by
  decide

/-! C8 — what one poll consumes. -/

/-- C8 (amended): a poll consumes every remaining byte — the trailing
partial line included — leaving `last_position` at the end of file, so
an immediately repeated poll returns nothing. -/
theorem C8_poll_consumes_to_eof (content : List Char)
    (p : ConversationParser) (hle : p.last_position ≤ content.length) :
    (parse_incremental (some content) p).2.last_position
      = content.length ∧
    (parse_incremental (some content)
      (parse_incremental (some content) p).2).1 = [] := by
  constructor
  · simp [parse_incremental, Nat.max_eq_right hle]
  · simp [parse_incremental, Nat.max_eq_right hle, List.drop_length,
      splitLines, trimChars]

/-- C8 witness: a poll from offset 0 over a concrete file. -/
theorem C8_poll_consumes_to_eof_witness :
    (({} : ConversationParser)).last_position ≤
      ("\x7b\"a\":\"1\"\x7d\n".data).length ∧
    (parse_incremental (some "\x7b\"a\":\"1\"\x7d\n".data)
      ({} : ConversationParser)).2.last_position
      = ("\x7b\"a\":\"1\"\x7d\n".data).length :=
  ⟨by decide,
    (C8_poll_consumes_to_eof "\x7b\"a\":\"1\"\x7d\n".data {} (by decide)).1⟩

/-- A log whose last line is incomplete: one full record, a newline,
then the unterminated bytes of a second record. -/
def f8a : List Char :=
  "\x7b\"type\":\"user\",\"content\":\"a\"\x7d\n\x7b\"type\":\"u".data

/-- The first poll over `f8a`. -/
def p8a : List Message × ConversationParser :=
  parse_incremental (some f8a) {}

/-- File `f8a` after the partial line is completed by a later append. -/
def f8b : List Char := f8a ++ "ser\",\"content\":\"b\"\x7d\n".data

/-- The second poll, after the completing append. -/
def p8b : List Message × ConversationParser :=
  parse_incremental (some f8b) p8a.2

/-- C8 counterexample: the bytes after the last newline of `f8a` start
at offset 30, yet the first poll leaves `last_position` at 40 — the
partial line is consumed — and the record completed by the later
append is never returned (the second poll yields nothing instead of
the `b` record the claim requires). -/
theorem C8_counterexample :
    f8a.drop 30 = "\x7b\"type\":\"u".data ∧
    (f8a.drop 30).contains '\n' = false ∧
    p8a.1 = [[("type", "user"), ("content", "a")]] ∧
    p8a.2.last_position = 40 ∧
    ¬ (40 : Nat) = 30 ∧
    p8b.1 = [] ∧
    ([] : List Message) ≠ [[("type", "user"), ("content", "b")]] := by
  decide

/-! C4 — the `/clear` reset as executed by `on_modified`. -/

theorem foldl_add_message_conversation (msgs : List Message)
    (store : SessionStore) (sid : String) (s : Session) (now : Nat)
    (h : lookupKey store.sessions sid = some s) :
    (lookupKey ((msgs.foldl
        (fun st m => st.add_message sid m now) store)).sessions sid).map
      Session.conversation = some (s.conversation ++ msgs) := by
  induction msgs generalizing store s with
  | nil => simp [h]
  | cons m ms ih =>
      simp only [List.foldl_cons]
      have h' : lookupKey (store.add_message sid m now).sessions sid
          = some { s with conversation := s.conversation ++ [m], updated_at := now } := by
        simp [SessionStore.add_message, h, lookupKey_setKey_self]
      rw [ih _ _ h']
      simp

/-- C4 (amended): when a poll's batch contains a `/clear` user message
and the session exists, the prior conversation is dropped but the
session's conversation then holds the *entire* batch — the `/clear`
record and any records before it included, not only those after the
marker — and the parser offset is reset to zero, so the next poll
re-reads the whole file rather than growing from lines after the
marker. -/
theorem C4_clear_resets (h : ConversationFileHandler)
    (store : SessionStore) (dir_name : String) (file : Option (List Char))
    (now : Nat) (s : Session)
    (hdeb : ¬ now - (lookupKey h.debounce_times
      (dir_name ++ "/" ++ "conversation.jsonl")).getD 0 < h.debounce_delay)
    (hsess : lookupKey store.sessions dir_name = some s)
    (hclear : detect_clear_command
      (parse_incremental file
        ((lookupKey h.parsers dir_name).getD {})).1 = true) :
    (lookupKey (h.on_modified store false dir_name "conversation.jsonl"
        file now).2.sessions dir_name).map Session.conversation
      = some (parse_incremental file
          ((lookupKey h.parsers dir_name).getD {})).1 ∧
    lookupKey (h.on_modified store false dir_name "conversation.jsonl"
        file now).1.parsers dir_name = some ({} : ConversationParser) := by
  have hguard1 : ¬ (false = true) := by decide
  have hguard2 : ¬ ¬ ("conversation.jsonl" : String) = "conversation.jsonl" :=
    fun hc => hc rfl
  unfold ConversationFileHandler.on_modified
  rw [if_neg hguard1, if_neg hguard2, if_neg hdeb]
  dsimp only
  rw [if_pos hclear]
  dsimp only
  simp only [SessionStore.get_session, hsess]
  constructor
  · rw [foldl_add_message_conversation _ _ _
      { s with conversation := [] } now (by rw [lookupKey_setKey_self])]
    simp
  · rw [lookupKey_setKey_self]
    rfl

/-- Seeded message 1 of scenario S4. -/
def m1 : Message := [("type", "user"), ("content", "m1")]

/-- Seeded message 2 of scenario S4. -/
def m2 : Message := [("type", "assistant"), ("content", "m2")]

/-- Seeded message 3 of scenario S4. -/
def m3 : Message := [("type", "user"), ("content", "m3")]

/-- The `/clear` user message of scenario S4. -/
def mClear : Message := [("type", "user"), ("content", "/clear")]

/-- Post-clear message 4 of scenario S4. -/
def m4 : Message := [("type", "user"), ("content", "m4")]

/-- Post-clear message 5 of scenario S4. -/
def m5 : Message := [("type", "assistant"), ("content", "m5")]

/-- The log content already consumed before the S4 poll. -/
def seed4 : List Char :=
  ("\x7b\"type\":\"user\",\"content\":\"m1\"\x7d\n" ++
   "\x7b\"type\":\"assistant\",\"content\":\"m2\"\x7d\n" ++
   "\x7b\"type\":\"user\",\"content\":\"m3\"\x7d\n").data

/-- The full S4 log: the seed, then `/clear`, then two messages. -/
def f4 : List Char :=
  seed4 ++
  ("\x7b\"type\":\"user\",\"content\":\"/clear\"\x7d\n" ++
   "\x7b\"type\":\"user\",\"content\":\"m4\"\x7d\n" ++
   "\x7b\"type\":\"assistant\",\"content\":\"m5\"\x7d\n").data

/-- The `SessionStart` event of session `D`. -/
def eStartD : Event := { type := some "SessionStart", session_id := some "D" }

/-- Store with session `D` holding the three seeded messages. -/
def store4 : SessionStore :=
  (((SessionStore.empty.process_event eStartD 0).add_message "D" m1 1
    ).add_message "D" m2 2).add_message "D" m3 3

/-- The session stored in `store4` under `"D"`. -/
def sessD4 : Session :=
  { session_id := "D", phase := .idle, conversation := [m1, m2, m3],
    created_at := 0, updated_at := 3 }

/-- Watcher state whose `D` parser already consumed the seed. -/
def h4 : ConversationFileHandler :=
  { parsers := [("D", { last_position := seed4.length })] }

/-- The S4 `on_modified` delivery. -/
def run4 : ConversationFileHandler × SessionStore :=
  h4.on_modified store4 false "D" "conversation.jsonl" (some f4) 1000

/-- C4 witness: the amended behaviour on the concrete S4 data. -/
theorem C4_clear_resets_witness :
    (lookupKey (h4.on_modified store4 false "D" "conversation.jsonl"
        (some f4) 1000).2.sessions "D").map Session.conversation
      = some (parse_incremental (some f4)
          ((lookupKey h4.parsers "D").getD {})).1 :=
  (C4_clear_resets h4 store4 "D" (some f4) 1000 sessD4 (by decide)
    (by decide) (by decide)).1

/-- C4 counterexample: after the S4 batch, `get_conversation` returns
the `/clear` record followed by the two post-clear messages — not
exactly the two post-clear messages the claim requires — and the
parser offset was reset to zero, so the next poll re-reads the whole
file instead of growing solely from lines after the marker. -/
theorem C4_counterexample :
    (run4.2.get_session "D").map Session.conversation
      = some [mClear, m4, m5] ∧
    some [mClear, m4, m5] ≠ some [m4, m5] ∧
    lookupKey run4.1.parsers "D" = some ({} : ConversationParser) := by
  decide

/-! C2 and C3 — the hook endpoint's write behaviour. -/

theorem socket_process_event_response (srv : HookSocketServer)
    (store : SessionStore) (e : Event) (writer now : Nat) :
    (srv.process_event store e writer now).2.2 = some Frame.waiting_ack ∨
    (srv.process_event store e writer now).2.2 = none := by
  unfold HookSocketServer.process_event
  by_cases h : e.type = some "PermissionRequest" <;> simp [h]

theorem handle_client_frames (srv : HookSocketServer)
    (store : SessionStore) (data : Option Event) (writer now : Nat) :
    (srv.handle_client store data writer now).2.2 = [] ∨
    (srv.handle_client store data writer now).2.2
      = [(writer, Frame.waiting_ack)] := by
  cases data with
  | none => left; rfl
  | some e =>
      rcases socket_process_event_response srv store e writer now with h | h
      · right; simp [HookSocketServer.handle_client, h]
      · left; simp [HookSocketServer.handle_client, h]

theorem handle_client_server_state (srv : HookSocketServer)
    (store : SessionStore) (data : Option Event) (writer now : Nat) :
    (srv.handle_client store data writer now).1 = srv ∨
    ∃ sid, (srv.handle_client store data writer now).1
      = { srv with
          pending_approvals := setKey srv.pending_approvals sid writer } := by
  cases data with
  | none => left; rfl
  | some e =>
      have h1 : (srv.handle_client store (some e) writer now).1
          = (srv.process_event store e writer now).1 := by
        unfold HookSocketServer.handle_client
        rcases socket_process_event_response srv store e writer now with h | h <;>
          simp [h]
      rw [h1]
      unfold HookSocketServer.process_event
      by_cases ht : e.type = some "PermissionRequest"
      · rw [if_pos ht]
        cases hs : e.session_id with
        | none => left; rfl
        | some sid =>
            by_cases hne : sid = ""
            · left; simp [hne]
            · right; exact ⟨sid, by simp [hne]⟩
      · rw [if_neg ht]; left; rfl

/-- C2 (amended): the endpoint implements no deadline at all — the
only frame `handle_client` ever writes is the acknowledgement, and the
only decision frame any operation writes is produced by
`send_approval_response` with the fixed reason
`"User decision from frontend"`; no operation produces
`deny(reason="timeout")`. -/
theorem C2_no_timeout_frame :
    (∀ (srv : HookSocketServer) (store : SessionStore) (data : Option Event)
      (writer now w : Nat) (f : Frame),
      (w, f) ∈ (srv.handle_client store data writer now).2.2 →
        f = Frame.waiting_ack) ∧
    (∀ (srv : HookSocketServer) (store : SessionStore) (sid d : String)
      (w : Nat) (f : Frame),
      (w, f) ∈ (srv.send_approval_response store sid d).2.2 →
        f = Frame.decision d "User decision from frontend") := by
  constructor
  · intro srv store data writer now w f hmem
    rcases handle_client_frames srv store data writer now with h | h
    · rw [h] at hmem; simp at hmem
    · rw [h] at hmem; simp at hmem; exact hmem.2
  · intro srv store sid d w f hmem
    cases hl : lookupKey srv.pending_approvals sid with
    | none => simp [HookSocketServer.send_approval_response, hl] at hmem
    | some w' =>
        simp [HookSocketServer.send_approval_response, hl] at hmem
        exact hmem.2

/-- A fresh hook socket server. -/
def hsrv0 : HookSocketServer := {}

/-- The `PermissionRequest` of scenario S2. -/
def ePermB : Event :=
  { type := some "PermissionRequest", session_id := some "B",
    tool_name := some "Bash", parameters := some "\x7b\"cmd\":\"ls\"\x7d" }

/-- S2: the hook connection (writer 0) delivers the request. -/
def run2a : HookSocketServer × SessionStore × List (Nat × Frame) :=
  hsrv0.handle_client SessionStore.empty (some ePermB) 0 0

/-- S2: the frontend decision is relayed. -/
def run2b : HookSocketServer × SessionStore × List (Nat × Frame) :=
  run2a.1.send_approval_response run2a.2.1 "B" "deny"

/-- C2 witness: the acknowledgement frame written on the concrete held
connection is covered by the amended description. -/
theorem C2_no_timeout_frame_witness :
    (0, Frame.waiting_ack) ∈ run2a.2.2 ∧
    Frame.waiting_ack = Frame.waiting_ack :=
  ⟨by decide,
    C2_no_timeout_frame.1 hsrv0 SessionStore.empty (some ePermB) 0 0 0
      Frame.waiting_ack (by decide)⟩

/-- C2 counterexample: for the concrete held `PermissionRequest`, the
ack is the only frame written at arrival, a deny resolves with reason
`"User decision from frontend"` — not `"timeout"` — and the phase
returns to `idle` only through that explicit decision; no
deadline-driven write exists among the endpoint's operations. -/
theorem C2_counterexample :
    run2a.2.2 = [(0, Frame.waiting_ack)] ∧
    run2b.2.2 = [(0, Frame.decision "deny" "User decision from frontend")] ∧
    Frame.decision "deny" "User decision from frontend"
      ≠ Frame.decision "deny" "timeout" ∧
    (run2b.2.1.get_session "B").map Session.phase
      = some SessionPhase.idle := by
  decide

/-- C3 (amended): a new `PermissionRequest` for a session with a
pending hook call *replaces* the stored writer — the pending map keeps
at most one entry per session id and the new request's frames go only
to the new connection; the prior pending call receives nothing (in
particular no `deny(reason="superseded")`). -/
theorem C3_supersession_replaces_without_response
    (srv : HookSocketServer) (store : SessionStore) (data : Option Event)
    (writer now : Nat) (hnd : keysNodup srv.pending_approvals) :
    keysNodup (srv.handle_client store data writer now).1.pending_approvals ∧
    (∀ w f, (w, f) ∈ (srv.handle_client store data writer now).2.2 →
      w = writer) ∧
    (∀ e sid, data = some e → e.type = some "PermissionRequest" →
      e.session_id = some sid → ¬ sid = "" →
      lookupKey
        (srv.handle_client store data writer now).1.pending_approvals sid
        = some writer) := by
  refine ⟨?_, ?_, ?_⟩
  · rcases handle_client_server_state srv store data writer now with h | ⟨sid, h⟩
    · rw [h]; exact hnd
    · rw [h]; exact keysNodup_setKey sid writer hnd
  · intro w f hmem
    rcases handle_client_frames srv store data writer now with h | h
    · rw [h] at hmem; simp at hmem
    · rw [h] at hmem; simp at hmem; exact hmem.1
  · intro e sid hdata htype hsid hne
    subst hdata
    have h1 : (srv.handle_client store (some e) writer now).1
        = (srv.process_event store e writer now).1 := by
      unfold HookSocketServer.handle_client
      rcases socket_process_event_response srv store e writer now with h | h <;>
        simp [h]
    rw [h1]
    unfold HookSocketServer.process_event
    rw [if_pos htype]
    simp [hsid, hne, lookupKey_setKey_self]

/-- The repeated `PermissionRequest` of scenario S6. -/
def ePermC : Event :=
  { type := some "PermissionRequest", session_id := some "C",
    tool_name := some "Bash" }

/-- S6: first hook connection (writer 1) delivers a request. -/
def run3a : HookSocketServer × SessionStore × List (Nat × Frame) :=
  hsrv0.handle_client SessionStore.empty (some ePermC) 1 0

/-- S6: second hook connection (writer 2) delivers another request for
the same session. -/
def run3b : HookSocketServer × SessionStore × List (Nat × Frame) :=
  run3a.1.handle_client run3a.2.1 (some ePermC) 2 1

/-- C3 witness: the amended description instantiated on the first S6
connection. -/
theorem C3_supersession_witness :
    keysNodup hsrv0.pending_approvals ∧
    lookupKey (hsrv0.handle_client SessionStore.empty (some ePermC) 1
      0).1.pending_approvals "C" = some 1 :=
  ⟨by simp [keysNodup, hsrv0],
    (C3_supersession_replaces_without_response hsrv0 SessionStore.empty
      (some ePermC) 1 0 (by simp [keysNodup, hsrv0])).2.2 ePermC "C" rfl rfl
      rfl (by decide)⟩

/-- C3 counterexample: across both S6 connections the first connection
(writer 1) receives only the acknowledgement — the synthetic
`deny(reason="superseded")` the claim requires is never written — while
the map indeed keeps a single entry, now pointing at writer 2. -/
theorem C3_counterexample :
    run3a.2.2 = [(1, Frame.waiting_ack)] ∧
    run3b.2.2 = [(2, Frame.waiting_ack)] ∧
    run3b.1.pending_approvals = [("C", 2)] ∧
    ¬ (1, Frame.decision "deny" "superseded") ∈ run3a.2.2 ++ run3b.2.2 := by
  decide

end ClaudeIsland
